import Mathlib

/-!
Verification model of the neoai-cli front-door dispatcher.

Shallow embedding of:
* `src/unnamed/part_000` (the init-local module): `rewriteTargetsAndProjects`,
  `initLocal` and its command dispatch;
* `src/bin/neoai.ts`: the `main` dispatcher, `resolveNeoai`,
  `warnIfUsingOutdatedGlobalInstall`, `checkOutdatedGlobalInstallation`,
  the memoized `getLatestVersionOfNeoai`;
* `src/bin/post-install.ts`: the watchdog-bounded post-install step.

External collaborators (filesystem module resolution, the npm/pnpm view
subprocesses, the workspace locator, the command engine) are modelled as
oracles stored in environment records; process side effects are modelled as
event traces, and process termination as an `Outcome` value.
-/

namespace NeoaiCLI

/-! ### String primitives

The JS string operations the dispatcher uses are modelled over `String.data`
(the character list), which the kernel evaluates on literals. -/

/-- JS `s.startsWith(pre)`. -/
def strStartsWith (s pre : String) : Bool := pre.data.isPrefixOf s.data

/-- Whether `pat` occurs as a contiguous run inside `l`. -/
def hasInfix : List Char → List Char → Bool
  | [], pat => pat.isEmpty
  | c :: rest, pat => pat.isPrefixOf (c :: rest) || hasInfix rest pat

/-- The characters of `l` strictly before the first occurrence of `pat`
(all of `l` when `pat` does not occur). -/
def takeUntilInfix : List Char → List Char → List Char
  | [], _ => []
  | c :: rest, pat =>
    if pat.isPrefixOf (c :: rest) then [] else c :: takeUntilInfix rest pat

/-- JS `items.join(',')`. -/
def joinComma : List String → String
  | [] => ""
  | [x] => x
  | x :: xs => x ++ "," ++ joinComma xs

/-! ## ArgumentNormalizer (`rewriteTargetsAndProjects` in src/unnamed/part_000) -/

/-- The fixed set of collector flags recognized by `rewriteTargetsAndProjects`
(the chain of `args[i] === ...` comparisons at lines 66-74 of the source). -/
def collectorFlags : List String :=
  ["-p", "--projects", "--exclude", "--files", "-t", "--target", "--targets"]

/-- The inner `while` loop's continuation condition:
`!args[i].startsWith('-')`. -/
def isCollectedItem (s : String) : Bool := !(strStartsWith s "-")

/-- The scanning loop of `rewriteTargetsAndProjects`, starting at index 3 of
the raw argv.  The JS `while (i < args.length)` loop is modelled by recursion
on the unscanned suffix; the inner collection loop is the
`takeWhile`/`dropWhile` split of that suffix. -/
def rewriteLoop : List String → List String
  | [] => []
  | x :: rest =>
    if x = "--" then x :: rest
    else if x ∈ collectorFlags then
      x :: joinComma (rest.takeWhile isCollectedItem)
        :: rewriteLoop (rest.dropWhile isCollectedItem)
    else x :: rewriteLoop rest
termination_by l => l.length
decreasing_by
  · simp only [List.length_cons]
    exact Nat.lt_succ_of_le (List.dropWhile_sublist isCollectedItem).length_le
  · simp

/-- Model of `rewriteTargetsAndProjects(args)`: `newArgs = [args[2]]`, then
scan from index 3.  The source assumes `args.length >= 3`; missing indices
behave as the default below, which no claim relies on. -/
def rewriteTargetsAndProjects (args : List String) : List String :=
  args.getD 2 "" :: rewriteLoop (args.drop 3)

/-! ## VersionComparator (src/bin/neoai.ts lines 203-295) -/

/-- JS truthiness of a `string | null | undefined` value: `null`/`undefined`
and the empty string are falsy. -/
def truthyS : Option String → Bool
  | none => false
  | some s => s != ""

/-- The decimal value of a digit character run. -/
def charsToNat (l : List Char) : Nat := l.foldl (fun n c => n * 10 + (c.toNat - 48)) 0

/-- Model of `semver.major`: the numeric prefix of a version string before
the first dot (the model only needs it on well-formed versions such as
"18.2.3"). -/
def semverMajor (v : String) : Nat := charsToNat (v.data.takeWhile fun c => c != '.')

/-- Model of `_getLatestVersionOfNeoai`: try `npm view`, on failure try
`pnpm view`, on failure return null.  The two subprocess results are oracle
inputs (`none` models the subprocess throwing). -/
def underlyingLatestLookup (npmResult pnpmResult : Option String) : Option String :=
  match npmResult with
  | some v => some v
  | none =>
    match pnpmResult with
    | some v => some v
    | none => none

/-- The process-wide memo cell captured by the IIFE around
`getLatestVersionOfNeoai`: `let cache: string = null`. -/
structure LatestCache where
  value : Option String
deriving DecidableEq

/-- Truthiness of the memo cell as tested by `cache || (cache = fn())`. -/
def cacheTruthy (c : LatestCache) : Bool := truthyS c.value

/-- One call of the memoized `getLatestVersionOfNeoai`:
`() => cache || (cache = fn())`.  `fnResult` is what `_getLatestVersionOfNeoai`
would return on this call.  Returns (returned value, cache afterwards, whether
the underlying lookup was invoked). -/
def getLatestVersionOfNeoai (c : LatestCache) (fnResult : Option String) :
    Option String × LatestCache × Bool :=
  if cacheTruthy c then (c.value, c, false)
  else (fnResult, ⟨fnResult⟩, true)

/-- Model of `checkOutdatedGlobalInstallation(globalNeoaiVersion,
localNeoaiVersion)`.  `fnResult` is the oracle for the underlying network
lookup; returns (isOutdated, cache afterwards, lookup invoked). -/
def checkOutdatedGlobalInstallation (c : LatestCache) (fnResult : Option String)
    (globalVersion localVersion : Option String) : Bool × LatestCache × Bool :=
  if !truthyS globalVersion then (false, c, false)
  else if truthyS localVersion then
    (decide (semverMajor (globalVersion.getD "") < semverMajor (localVersion.getD "")),
      c, false)
  else
    let r := getLatestVersionOfNeoai c fnResult
    (truthyS r.1 && decide (semverMajor (globalVersion.getD "") < semverMajor (r.1.getD "")),
      r.2.1, r.2.2)

/-- Model of `warnIfUsingOutdatedGlobalInstall(globalNeoaiVersion,
localNeoaiVersion)`: returns early when the `NEOAI_CLI_SET` environment marker
is truthy, otherwise warns exactly when `checkOutdatedGlobalInstallation` says
the global install is outdated.  Returns (warning emitted, cache afterwards,
lookup invoked). -/
def warnIfUsingOutdatedGlobalInstall (c : LatestCache) (fnResult : Option String)
    (markerSet : Bool) (globalVersion localVersion : Option String) :
    Bool × LatestCache × Bool :=
  if markerSet then (false, c, false)
  else checkOutdatedGlobalInstallation c fnResult globalVersion localVersion

/-! ## InstallationResolver (`resolveNeoai`, src/bin/neoai.ts lines 163-178) -/

/-- The fixed globals-relative root `join(__dirname, '../../../')` of the
currently running copy; its concrete value is irrelevant, only that it differs
from workspace directories used in examples. -/
def globalsRoot : String := "/globals"

/-- Oracle for the two `require.resolve('neoai/bin/neoai.js', ...)` attempts,
keyed by the search root.  `none` models the resolution call throwing. -/
structure ResolveEnv where
  fromInstallationDir : String → Option String
  fromRoot : String → Option String

/-- Model of `resolveNeoai(workspace)`: prefer the `.neoai/installation` managed
directory (its failure is swallowed by the empty `catch {}`), then fall back
to root resolution, whose failure (modelled by `none`) is an exception that
escapes the function. -/
def resolveNeoai (re : ResolveEnv) (workspace : Option String) : Option String :=
  let root := match workspace with
    | some w => w
    | none => globalsRoot
  match re.fromInstallationDir root with
  | some p => some p
  | none => re.fromRoot root

/-! ## DelegationExecutor (`main`, src/bin/neoai.ts lines 25-114) -/

/-- JS `str.includes(pat)` for a literal pattern. -/
def strIncludes (s pat : String) : Bool := hasInfix s.data pat.data

/-- The delegation target: `localNeoai.replace(/\.neoai.*\x2f, '.neoai\x2f') + 'neoaiw.js'`
when the local path lies under a `.neoai` managed-installation directory
(the regex replaces everything from the first `.neoai` to the end of the
string with `.neoai/`), otherwise the local path itself. -/
def delegateTarget (localPath : String) : String :=
  if strIncludes localPath ".neoai" then
    String.mk (takeUntilInfix localPath.data ".neoai".data) ++ ".neoai/" ++ "neoaiw.js"
  else localPath

/-- Commands that skip `assertSupportedPlatform` (lines 26-33). -/
def isPlatformCheckExempt (c : Option String) : Bool :=
  c == some "report" || c == some "--version" || c == some "--help" || c == some "reset"

/-- The workspace-exempt branch condition of lines 51-56: `new`, `_migrate`,
`init`, or `graph` with no detected workspace. -/
def isWorkspaceExempt (c : Option String) (workspace : Option String) : Bool :=
  c == some "new" || c == some "_migrate" || c == some "init"
    || (c == some "graph" && workspace == none)

/-- The fixed cloud-only command set (lines 181-189). -/
def neoaiCloudCommands : List String :=
  ["start-ci-run", "login", "logout", "connect", "view-logs", "fix-ci", "record"]

/-- Model of `isNeoaiCloudCommand(command)` (line 190). -/
def isNeoaiCloudCommand : Option String → Bool
  | none => false
  | some c => neoaiCloudCommands.contains c

/-- Observable dispatcher actions, in the order the source performs them.
Performance marks, dotenv loading and `setupWorkspaceContext` are untracked. -/
inductive Event where
  | setDaemonDisabled
  | execCommands
  | printVersions
  | printGuidanceNoWorkspace
  | printNote
  | warnOutdated (emitted : Bool) (lookupInvoked : Bool)
  | printMissingLocal
  | initLocalRun
  | requireModule (path : String)
deriving DecidableEq, Repr

/-- Terminal state of one dispatcher invocation. -/
inductive Outcome where
  | inProcess (daemonDisabled : Bool)
  | delegate (target : String)
  | exitVersion
  | exitNoWorkspace
  | exitMissingLocal (root : Option String)
  | exitError
  | fallThrough
deriving DecidableEq, Repr

/-- The process exit code each terminal state produces (`none` = the command
body keeps running in some process). -/
def outcomeExitCode : Outcome → Option Nat
  | .inProcess _ => none
  | .delegate _ => none
  | .exitVersion => some 0
  | .exitNoWorkspace => some 1
  | .exitMissingLocal _ => some 1
  | .exitError => some 1
  | .fallThrough => none

/-- All inputs `main` consumes: the command token `argv[2]`, the platform
probe, the workspace locator result, the module-resolution oracle, the two
version reads, the `NEOAI_CLI_SET` marker, and the npm/pnpm view oracles. -/
structure MainEnv where
  argv2 : Option String
  platformSupported : Bool
  workspace : Option String
  resolveEnv : ResolveEnv
  localVersionLookup : Option String
  packageVersion : String
  markerSet : Bool
  npmViewResult : Option String
  pnpmViewResult : Option String

/-- The `main` dispatcher of src/bin/neoai.ts, returning the trace of
observable events and the terminal state.  `Outcome.exitError` is the
top-level `main().catch` handler (exit code 1); an unsupported platform and a
failing self-resolution both reach it. -/
def mainRun (env : MainEnv) : List Event × Outcome :=
  if !isPlatformCheckExempt env.argv2 && !env.platformSupported then
    ([], .exitError)
  else if isWorkspaceExempt env.argv2 env.workspace then
    ([.setDaemonDisabled, .execCommands], .inProcess true)
  else
    let localNeoai : Option String :=
      match env.workspace with
      | none => none
      | some w => resolveNeoai env.resolveEnv (some w)
    match resolveNeoai env.resolveEnv none with
    | none => ([], .exitError)
    | some selfPath =>
      let isLocalInstall := localNeoai == some selfPath
      let localVersion : Option String :=
        if truthyS localNeoai then env.localVersionLookup else none
      let globalVersion : Option String :=
        if isLocalInstall then none else some env.packageVersion
      let fnResult := underlyingLatestLookup env.npmViewResult env.pnpmViewResult
      if env.argv2 == some "--version" then
        ([.printVersions], .exitVersion)
      else if env.workspace == none then
        let wc := warnIfUsingOutdatedGlobalInstall ⟨none⟩ fnResult env.markerSet
          globalVersion none
        ([.printGuidanceNoWorkspace, .printNote, .warnOutdated wc.1 wc.2.2],
          .exitNoWorkspace)
      else if !truthyS localNeoai && !isNeoaiCloudCommand env.argv2 then
        ([.printMissingLocal], .exitMissingLocal env.workspace)
      else if isNeoaiCloudCommand env.argv2 then
        ([.setDaemonDisabled, .execCommands], .inProcess true)
      else if isLocalInstall then
        ([.initLocalRun], .inProcess false)
      else
        match localNeoai with
        | some l =>
          if l != "" then
            let wc := warnIfUsingOutdatedGlobalInstall ⟨none⟩ fnResult env.markerSet
              globalVersion localVersion
            ([.warnOutdated wc.1 wc.2.2, .requireModule (delegateTarget l)],
              .delegate (delegateTarget l))
          else ([], .fallThrough)
        | none => ([], .fallThrough)

/-! ## initLocal (src/unnamed/part_000 lines 13-58) -/

/-- The Angular CLI commands `shouldDelegateToAngularCLI` recognizes. -/
def angularDelegateCommands : List String :=
  ["analytics", "cache", "completion", "config", "doc", "update"]

/-- Model of `shouldDelegateToAngularCLI()` (line 111). -/
def shouldDelegateToAngularCLI : Option String → Bool
  | none => false
  | some c => angularDelegateCommands.contains c

/-- The extra names appended to the live handler keys in `isKnownCommand`. -/
def extraKnownCommands : List String :=
  ["g", "dep-graph", "affected:dep-graph", "format", "workspace-schematic",
    "connect-to-neoai-cloud", "clear-cache", "help"]

/-- Model of `isKnownCommand(command)` (line 91): true for a missing or empty command,
a flag-like command, or a member of the handler-key table (`handlerKeys` is
the oracle for the live `commandsObject` reflection). -/
def isKnownCommand (handlerKeys : List String) : Option String → Bool
  | none => true
  | some c => c == "" || strStartsWith c "-" || (handlerKeys ++ extraKnownCommands).contains c

/-- JS `Array.prototype.indexOf`: index of the first occurrence or -1. -/
def jsIndexOf (l : List String) (x : String) : Int :=
  match l.findIdx? (fun y => y == x) with
  | some i => (i : Int)
  | none => -1

/-- Observable actions of `initLocal`. -/
inductive InitEvent where
  | setEnvMarker
  | angularFallback
  | parseArgs (args : List String)
  | showHelp
deriving DecidableEq, Repr

/-- Inputs `initLocal` consumes: the raw argv, `workspace.type`, and the
handler-key table of the command engine. -/
structure InitLocalEnv where
  argv : List String
  workspaceKind : String
  handlerKeys : List String

/-- The command dispatch inside `initLocal`'s `try` block (lines 25-53);
the `process.on('exit')` hook, performance mark and the swallowed
`ensureNeoaiConsoleInstalled` call are untracked. -/
def initLocalDispatch (env : InitLocalEnv) : List InitEvent :=
  let cmd := env.argv[2]?
  if env.workspaceKind != "nx" && shouldDelegateToAngularCLI cmd then
    [.angularFallback]
  else if cmd == some "run" || cmd == some "g" || cmd == some "generate" then
    [.parseArgs (env.argv.drop 2)]
  else if isKnownCommand env.handlerKeys cmd then
    let newArgs := rewriteTargetsAndProjects env.argv
    let help := jsIndexOf newArgs "--help"
    let split := jsIndexOf newArgs "--"
    if help > -1 ∧ (split = -1 ∨ split > help) then [.showHelp]
    else [.parseArgs newArgs]
  else
    [.parseArgs (env.argv.drop 2)]

/-- Model of `initLocal(workspace)`: its first statement sets
`process.env.NEOAI_CLI_SET = 'true'`, then the dispatch runs. -/
def initLocal (env : InitLocalEnv) : List InitEvent :=
  InitEvent.setEnvMarker :: initLocalDispatch env

/-! ## PostInstallGuard (src/bin/post-install.ts) -/

/-- Inputs of the guarded post-install work: whether this install resolves as
the workspace's main copy, whether `neoai.json` exists at the workspace root,
the platform probe, whether neoai-cloud is configured, and the result of
`verifyOrUpdateNeoaiCloudClient` (`Except.error` models a throw). -/
structure PostInstallEnv where
  isMain : Bool
  neoaiJsonExists : Bool
  platformOk : Bool
  cloudUsed : Bool
  verifyResult : Except String Unit

/-- The body of the `try` block in the async IIFE (lines 23-30):
only the main copy with a `neoai.json` does work; `assertSupportedPlatform`
throws on an unsupported platform; the cloud client is verified only when
neoai-cloud is in use. -/
def guardedWork (env : PostInstallEnv) : Except String Unit :=
  if env.isMain && env.neoaiJsonExists then
    if !env.platformOk then .error "unsupported platform"
    else if env.cloudUsed then env.verifyResult
    else .ok ()
  else .ok ()

/-- Observable actions of the post-install process. -/
inductive PostEvent where
  | logTimedOut
  | logCaught (e : String)
  | logDuration
  | clearWatchdog
  | exitProc (code : Nat)
deriving DecidableEq, Repr

/-- Which pending continuation settles the post-install process first: the
30-second watchdog, the guarded work's `try`/`catch`/`finally`, or one of the
top-level `uncaughtException` / `unhandledRejection` handlers. -/
inductive PostOutcome where
  | timerFirst
  | workFirst
  | uncaught (e : String)
  | unhandled (e : String)
deriving DecidableEq, Repr

/-- The `try`/`catch`/`finally` around the guarded work: a throw is logged,
and the `finally` block logs the duration, clears the watchdog and exits 0. -/
def postInstallWorkRun (env : PostInstallEnv) : List PostEvent :=
  match guardedWork env with
  | .ok _ => [.logDuration, .clearWatchdog, .exitProc 0]
  | .error e => [.logCaught e, .logDuration, .clearWatchdog, .exitProc 0]

/-- The whole post-install process under each settling order: the watchdog
callback logs and exits 0; the work path runs its `finally`; the top-level
handlers log and exit 0. -/
def postInstallRun (env : PostInstallEnv) : PostOutcome → List PostEvent
  | .timerFirst => [.logTimedOut, .exitProc 0]
  | .workFirst => postInstallWorkRun env
  | .uncaught e => [.logCaught e, .exitProc 0]
  | .unhandled e => [.logCaught e, .exitProc 0]

/-- The exit codes a post-install trace performs. -/
def exitCodesOf (l : List PostEvent) : List Nat :=
  l.filterMap fun e =>
    match e with
    | .exitProc c => some c
    | _ => none

/-! ## Scanning-loop equations for `rewriteLoop` -/

theorem rewriteLoop_nil : rewriteLoop [] = [] := by
  simp [rewriteLoop]

theorem rewriteLoop_sep (t : List String) : rewriteLoop ("--" :: t) = "--" :: t := by
  simp [rewriteLoop]

theorem rewriteLoop_collector (x : String) (hx : x ∈ collectorFlags) (rest : List String) :
    rewriteLoop (x :: rest) =
      x :: joinComma (rest.takeWhile isCollectedItem)
        :: rewriteLoop (rest.dropWhile isCollectedItem) := by
  have hne : x ≠ "--" := by
    intro h; subst h; simp [collectorFlags] at hx
  simp only [rewriteLoop]
  rw [if_neg hne, if_pos hx]

theorem rewriteLoop_other (x : String) (h1 : x ≠ "--") (h2 : x ∉ collectorFlags)
    (rest : List String) : rewriteLoop (x :: rest) = x :: rewriteLoop rest := by
  simp only [rewriteLoop]
  rw [if_neg h1, if_neg h2]

/-- The inner collection loop splits the suffix at the first token starting
with `-`. -/
theorem takeWhile_dropWhile_split (items rem : List String)
    (hitems : ∀ y ∈ items, isCollectedItem y = true)
    (hrem : ∀ y, rem.head? = some y → isCollectedItem y = false) :
    (items ++ rem).takeWhile isCollectedItem = items ∧
    (items ++ rem).dropWhile isCollectedItem = rem := by
  induction items with
  | nil =>
    cases rem with
    | nil => simp
    | cons y t =>
      have hy := hrem y rfl
      simp [List.takeWhile_cons, List.dropWhile_cons, hy]
  | cons a as ih =>
    have ha := hitems a (by simp)
    have ih2 := ih (fun y hy => hitems y (by simp [hy]))
    simp [List.takeWhile_cons, List.dropWhile_cons, ha, ih2.1, ih2.2]

/-- C2: whenever the scan of `rewriteTargetsAndProjects` reaches a token that
is exactly `--`, it copies that token and all remaining tokens verbatim and
stops, so no collector-flag rewriting occurs past the separator; in
particular `rewriteTargetsAndProjects(['node','cli','build','--','-p','a'])`
is `['build','--','-p','a']`. -/
theorem separator_stops_rewriting :
    (∀ t : List String, rewriteLoop ("--" :: t) = "--" :: t) ∧
    rewriteTargetsAndProjects ["node", "cli", "build", "--", "-p", "a"]
      = ["build", "--", "-p", "a"] := by
  refine ⟨rewriteLoop_sep, ?_⟩
  show "build" :: rewriteLoop ["--", "-p", "a"] = ["build", "--", "-p", "a"]
  rw [rewriteLoop_sep]

/-- C3: when the scan reaches a collector flag (before any `--`), the flag is
emitted unchanged, all immediately following tokens not starting with `-` are
consumed and emitted joined with `,` as one token, and scanning resumes at
the first unconsumed token; with zero such tokens the joined token is the
empty string, as in `rewriteTargetsAndProjects(['node','cli','test','-t','x','-p'])
= ['test','-t','x','-p','']`. -/
theorem collector_flag_collects (flag : String) (hflag : flag ∈ collectorFlags)
    (items rem : List String)
    (hitems : ∀ y ∈ items, strStartsWith y "-" = false)
    (hrem : ∀ y, rem.head? = some y → strStartsWith y "-" = true) :
    rewriteLoop (flag :: (items ++ rem)) =
      flag :: joinComma items :: rewriteLoop rem ∧
    rewriteTargetsAndProjects ["node", "cli", "test", "-t", "x", "-p"]
      = ["test", "-t", "x", "-p", ""] := by
  have hsplit := takeWhile_dropWhile_split items rem
    (fun y hy => by simp [isCollectedItem, hitems y hy])
    (fun y hy => by simp [isCollectedItem, hrem y hy])
  constructor
  · rw [rewriteLoop_collector flag hflag, hsplit.1, hsplit.2]
  · show "test" :: rewriteLoop ["-t", "x", "-p"] = ["test", "-t", "x", "-p", ""]
    rw [show (["-t", "x", "-p"] : List String) = "-t" :: (["x"] ++ ["-p"]) from rfl]
    have h1 := takeWhile_dropWhile_split ["x"] ["-p"]
      (by intro y hy; simp at hy; subst hy; decide)
      (by intro y hy; simp at hy; subst hy; decide)
    rw [rewriteLoop_collector "-t" (by decide), h1.1, h1.2]
    have h2 := takeWhile_dropWhile_split ([] : List String) ([] : List String)
      (by intro y hy; simp at hy) (by intro y hy; simp at hy)
    rw [show (["-p"] : List String) = "-p" :: ([] ++ []) from rfl]
    rw [rewriteLoop_collector "-p" (by decide), h2.1, h2.2, rewriteLoop_nil]
    rfl

/-- Witness for C3 at the flag `-t` followed by the single item `x` and the
unconsumed suffix `['-p']`. -/
theorem collector_flag_collects_witness :
    rewriteLoop ("-t" :: (["x"] ++ ["-p"])) =
      "-t" :: joinComma ["x"] :: rewriteLoop ["-p"] :=
  (collector_flag_collects "-t" (by decide) ["x"] ["-p"]
    (by intro y hy; simp at hy; subst hy; decide)
    (by intro y hy; simp at hy; subst hy; decide)).1

/-! ## Cloud-only command routing -/

/-- Concrete invocation: `login` on a supported platform, no workspace, no
local installation anywhere, with the running global copy resolving itself. -/
def cloudNoWorkspaceEnv : MainEnv :=
  ⟨some "login", true, none,
    ⟨fun _ => none, fun r => if r == globalsRoot then some "/g/neoai.js" else none⟩,
    none, "20.0.0", false, none, none⟩

/-- C1 counterexample: `login` with no workspace and no local installation is
dispatched to `ExitNoWorkspace` (exit code 1), never reaching the cloud-only
`InProcess` branch — the no-workspace exit precedes the cloud-command test. -/
theorem cloud_command_no_workspace_cx :
    isNeoaiCloudCommand cloudNoWorkspaceEnv.argv2 = true ∧
    cloudNoWorkspaceEnv.workspace = none ∧
    (mainRun cloudNoWorkspaceEnv).2 = Outcome.exitNoWorkspace ∧
    outcomeExitCode (mainRun cloudNoWorkspaceEnv).2 = some 1 := by decide

/-- C1 amended: when a workspace exists (and the platform check and the
self-resolution of the running copy succeed), every cloud-only command reaches
`InProcess` with the background coordination process disabled, regardless of
local-installation state — in particular it never reaches `ExitMissingLocal`;
with no workspace it reaches `ExitNoWorkspace` instead (see the
counterexample). -/
theorem cloud_command_routing (env : MainEnv) (w s : String)
    (hcloud : isNeoaiCloudCommand env.argv2 = true)
    (hplat : env.platformSupported = true)
    (hws : env.workspace = some w)
    (hself : resolveNeoai env.resolveEnv none = some s) :
    mainRun env = ([Event.setDaemonDisabled, Event.execCommands], Outcome.inProcess true) := by
  obtain ⟨c, hc⟩ : ∃ c, env.argv2 = some c := by
    cases h : env.argv2 with
    | none => rw [h] at hcloud; simp [isNeoaiCloudCommand] at hcloud
    | some c => exact ⟨c, rfl⟩
  have hmem : c ∈ neoaiCloudCommands := by
    rw [hc] at hcloud
    simpa [isNeoaiCloudCommand] using hcloud
  unfold mainRun
  rw [hc, hws, hplat, hself]
  fin_cases hmem <;>
    simp [isPlatformCheckExempt, isWorkspaceExempt, isNeoaiCloudCommand,
      neoaiCloudCommands, truthyS]

/-- Concrete invocation: `login` inside workspace `/w` with no local
installation. -/
def cloudWorkspaceEnv : MainEnv :=
  ⟨some "login", true, some "/w",
    ⟨fun _ => none, fun r => if r == globalsRoot then some "/g/neoai.js" else none⟩,
    none, "20.0.0", false, none, none⟩

/-- Witness for the amended C1 at the concrete `login` invocation. -/
theorem cloud_command_routing_witness :
    mainRun cloudWorkspaceEnv
      = ([Event.setDaemonDisabled, Event.execCommands], Outcome.inProcess true) :=
  cloud_command_routing cloudWorkspaceEnv "/w" "/g/neoai.js" (by decide) rfl rfl (by decide)

/-! ## Outdated-global-install warning rules -/

/-- C4: (1) with no global-only version known the warning is never emitted,
whatever the marker, cache, local version or lookup oracle; (2) with a global
and a local version known, the warning is emitted exactly when
`major(global) < major(local)`; (3) with the delegation-marker environment
variable set, the warning is suppressed for all version values. -/
theorem outdated_warning_rules :
    (∀ c fn markerSet l,
      (warnIfUsingOutdatedGlobalInstall c fn markerSet none l).1 = false) ∧
    (∀ c fn gv lv, gv ≠ "" → lv ≠ "" →
      ((warnIfUsingOutdatedGlobalInstall c fn false (some gv) (some lv)).1 = true
        ↔ semverMajor gv < semverMajor lv)) ∧
    (∀ c fn g l, (warnIfUsingOutdatedGlobalInstall c fn true g l).1 = false) := by
  refine ⟨?_, ?_, ?_⟩
  · intro c fn m l
    cases m <;>
      simp [warnIfUsingOutdatedGlobalInstall, checkOutdatedGlobalInstallation, truthyS]
  · intro c fn gv lv hg hl
    simp [warnIfUsingOutdatedGlobalInstall, checkOutdatedGlobalInstallation, truthyS, hg, hl]
  · intro c fn g l
    simp [warnIfUsingOutdatedGlobalInstall]

/-- Witness for C4: global 18.2.0 behind local 19.0.1 warns. -/
theorem outdated_warning_rules_witness :
    (warnIfUsingOutdatedGlobalInstall ⟨none⟩ none false (some "18.2.0") (some "19.0.1")).1
      = true :=
  (outdated_warning_rules.2.1 ⟨none⟩ none "18.2.0" "19.0.1" (by decide) (by decide)).mpr
    (by decide)

/-! ## Memoization of the latest-published-version lookup -/

/-- C5 counterexample: a first call whose underlying lookup fails (yields
null) completes, yet the second call re-invokes the underlying lookup — the
`cache || (cache = fn())` idiom only memoizes truthy results. -/
theorem latest_lookup_recomputed_cx :
    getLatestVersionOfNeoai ⟨none⟩ none = (none, ⟨none⟩, true) ∧
    (getLatestVersionOfNeoai (getLatestVersionOfNeoai ⟨none⟩ none).2.1 none).2.2 = true := by
  decide

/-- C5 amended: the lookup is memoized only on success — once the cache is
truthy it is returned without re-invoking the lookup, and after any call whose
underlying lookup yields a non-empty version string no subsequent call
re-invokes it; a failed (null) lookup is not cached (see the
counterexample). -/
theorem latest_lookup_memoized_on_success (c : LatestCache) (fn fn2 : Option String)
    (s : String) (hs : s ≠ "") :
    (cacheTruthy c = true → getLatestVersionOfNeoai c fn = (c.value, c, false)) ∧
    (getLatestVersionOfNeoai (getLatestVersionOfNeoai c (some s)).2.1 fn2).2.2 = false := by
  constructor
  · intro h
    simp [getLatestVersionOfNeoai, h]
  · by_cases h : cacheTruthy c = true
    · simp [getLatestVersionOfNeoai, h]
    · have h2 : cacheTruthy c = false := by simpa using h
      have h3 : cacheTruthy ⟨some s⟩ = true := by simp [cacheTruthy, truthyS, hs]
      simp [getLatestVersionOfNeoai, h2, h3]

/-- Witness for the amended C5: a successful first lookup of `21.0.0` is not
re-invoked by the second call. -/
theorem latest_lookup_memoized_on_success_witness :
    (getLatestVersionOfNeoai (getLatestVersionOfNeoai ⟨none⟩ (some "21.0.0")).2.1 none).2.2
      = false :=
  (latest_lookup_memoized_on_success ⟨none⟩ none none "21.0.0" (by decide)).2

/-! ## Resolution-failure propagation policy -/

/-- Concrete invocation: `build` in workspace `/w` whose local installation
resolves fine, while both self-resolution attempts (from the globals root)
fail. -/
def selfResolutionFailsEnv : MainEnv :=
  ⟨some "build", true, some "/w",
    ⟨fun r => if r == "/w" then some "/w/node_modules/neoai/bin/neoai.js" else none,
      fun _ => none⟩,
    some "21.0.0", "20.0.0", false, none, none⟩

/-- C6 counterexample: the self (globals-relative) resolution attempt sits
outside any try/catch, so its failure escapes the resolver and reaches the
top-level `main().catch` handler (`exitError`, exit code 1) even though the
workspace-local resolution succeeded. -/
theorem self_resolution_failure_propagates_cx :
    resolveNeoai selfResolutionFailsEnv.resolveEnv (some "/w")
      = some "/w/node_modules/neoai/bin/neoai.js" ∧
    resolveNeoai selfResolutionFailsEnv.resolveEnv none = none ∧
    mainRun selfResolutionFailsEnv = ([], Outcome.exitError) := by decide

/-- C6 amended: resolution failures are swallowed for the workspace-local
attempt (the caller's try/catch) and for the managed-installation attempt
inside the resolver (which falls through to root resolution), so whenever the
self-resolution succeeds no resolution failure can reach the top-level error
handler; a failing self root-resolution, however, does propagate (see the
counterexample). -/
theorem resolution_failure_policy (env : MainEnv) (re : ResolveEnv) (s w : String)
    (hself : resolveNeoai env.resolveEnv none = some s)
    (hplat : env.platformSupported = true)
    (hins : re.fromInstallationDir w = none) :
    (mainRun env).2 ≠ Outcome.exitError ∧
    resolveNeoai re (some w) = re.fromRoot w := by
  constructor
  · unfold mainRun
    rw [hplat, hself]
    simp only [Bool.not_true, Bool.and_false, Bool.false_eq_true, if_false]
    split
    · simp
    · repeat' split
      all_goals simp
  · simp [resolveNeoai, hins]

/-- Witness for the amended C6 at a concrete environment whose local
resolution fails both attempts while the self-resolution succeeds. -/
theorem resolution_failure_policy_witness :
    (mainRun cloudWorkspaceEnv).2 ≠ Outcome.exitError ∧
    resolveNeoai cloudWorkspaceEnv.resolveEnv (some "/w")
      = cloudWorkspaceEnv.resolveEnv.fromRoot "/w" :=
  resolution_failure_policy cloudWorkspaceEnv cloudWorkspaceEnv.resolveEnv
    "/g/neoai.js" "/w" (by decide) rfl rfl

/-! ## Post-install guard termination -/

/-- C7: whichever way the post-install process settles — the 30-second
watchdog firing first, the guarded work completing or throwing (with the
watchdog then cancelled), or a top-level uncaught exception / unhandled
rejection — it performs exactly one `process.exit`, with code 0, as its last
action; and on the work path the watchdog timer is cleared. -/
theorem postinstall_always_exits_zero (env : PostInstallEnv) (o : PostOutcome) :
    exitCodesOf (postInstallRun env o) = [0] ∧
    (postInstallRun env o).getLast? = some (PostEvent.exitProc 0) ∧
    PostEvent.clearWatchdog ∈ postInstallRun env PostOutcome.workFirst := by
  refine ⟨?_, ?_, ?_⟩ <;>
    cases o <;>
      simp [postInstallRun, postInstallWorkRun, exitCodesOf] <;>
        cases h : guardedWork env <;> simp

/-! ## initLocal marker ordering -/

/-- C9: `initLocal` emits the `NEOAI_CLI_SET = 'true'` assignment as its very
first action — before the Angular fallback, any `parse` of the command body or
any help display, and never again later — and once that marker is set every
subsequent outdated-global-warning check in the process is suppressed. -/
theorem initLocal_sets_marker_first (env : InitLocalEnv) :
    (initLocal env = InitEvent.setEnvMarker :: initLocalDispatch env ∧
      InitEvent.setEnvMarker ∉ initLocalDispatch env) ∧
    (∀ c fn g l, (warnIfUsingOutdatedGlobalInstall c fn true g l).1 = false) := by
  refine ⟨⟨rfl, ?_⟩, ?_⟩
  · unfold initLocalDispatch
    dsimp only
    split_ifs <;> simp
  · intro c fn g l
    simp [warnIfUsingOutdatedGlobalInstall]

/-! ## Normal-command routing with a resolved local installation -/

/-- C8: for a Normal-class command (neither cloud-only, exempt, nor
`--version`) with a resolved local installation: when the local path equals
the self path the dispatcher reaches `InProcess` (running `initLocal`) and
never `Delegate`; when they differ it reaches `Delegate` exactly once, the
outdated-global warning check preceding the hand-off in the trace, and control
goes to the module at the local path — through the `.neoai` wrapper entry when
that path lies under the managed-installation marker directory, and to the
local path itself otherwise. -/
theorem normal_command_local_routing (env : MainEnv) (w l s : String)
    (hplat : env.platformSupported = true)
    (hcloud : isNeoaiCloudCommand env.argv2 = false)
    (hexempt : isWorkspaceExempt env.argv2 env.workspace = false)
    (hver : env.argv2 ≠ some "--version")
    (hws : env.workspace = some w)
    (hlocal : resolveNeoai env.resolveEnv (some w) = some l)
    (hl : l ≠ "")
    (hself : resolveNeoai env.resolveEnv none = some s) :
    (l = s → mainRun env = ([Event.initLocalRun], Outcome.inProcess false)) ∧
    (l ≠ s → ∃ emitted invoked,
      mainRun env =
        ([Event.warnOutdated emitted invoked, Event.requireModule (delegateTarget l)],
          Outcome.delegate (delegateTarget l))) ∧
    (strIncludes l ".neoai" = false → delegateTarget l = l) := by
  have hbver : (env.argv2 == some "--version") = false := beq_eq_false_iff_ne.mpr hver
  rw [hws] at hexempt
  refine ⟨?_, ?_, ?_⟩
  · intro heq
    subst heq
    simp [mainRun, hplat, hws, hlocal, hself, hexempt, hbver, hcloud, hl, truthyS]
  · intro hne
    refine ⟨(warnIfUsingOutdatedGlobalInstall ⟨none⟩
        (underlyingLatestLookup env.npmViewResult env.pnpmViewResult) env.markerSet
        (some env.packageVersion) env.localVersionLookup).1,
      (warnIfUsingOutdatedGlobalInstall ⟨none⟩
        (underlyingLatestLookup env.npmViewResult env.pnpmViewResult) env.markerSet
        (some env.packageVersion) env.localVersionLookup).2.2, ?_⟩
    simp [mainRun, hplat, hws, hlocal, hself, hexempt, hbver, hcloud, hl, hne, truthyS]
  · intro hni
    simp [delegateTarget, hni]

/-- Concrete invocation: `build` in workspace `/w` with a managed local
installation under `/w/.neoai` and a distinct global self copy, local version
21.0.0 against global 20.0.0. -/
def delegatingEnv : MainEnv :=
  ⟨some "build", true, some "/w",
    ⟨fun r => if r == "/w" then some "/w/.neoai/inst/neoai.js" else none,
      fun r => if r == globalsRoot then some "/g/neoai.js" else none⟩,
    some "21.0.0", "20.0.0", false, none, none⟩

/-- Witness for C8: the concrete `build` invocation delegates through the
`.neoai` wrapper entry. -/
theorem normal_command_local_routing_witness :
    ∃ emitted invoked,
      mainRun delegatingEnv =
        ([Event.warnOutdated emitted invoked,
          Event.requireModule (delegateTarget "/w/.neoai/inst/neoai.js")],
          Outcome.delegate (delegateTarget "/w/.neoai/inst/neoai.js")) :=
  (normal_command_local_routing delegatingEnv "/w" "/w/.neoai/inst/neoai.js"
    "/g/neoai.js" rfl (by decide) (by decide) (by decide) rfl (by decide)
    (by decide) (by decide)).2.1 (by decide)

/-! ## ExitNoWorkspace ordering of guidance, warning check and exit -/

/-- C10: a non-exempt, non-version command with no workspace detected prints
the guidance text, then runs the outdated-global-warning check — which, with
no local version available and a truthy global version, invokes the lazy
latest-published-version lookup — and exits with code 1. -/
theorem no_workspace_warning_after_guidance (env : MainEnv) (s : String)
    (hplat : env.platformSupported = true)
    (hws : env.workspace = none)
    (h1 : env.argv2 ≠ some "new") (h2 : env.argv2 ≠ some "_migrate")
    (h3 : env.argv2 ≠ some "init") (h4 : env.argv2 ≠ some "graph")
    (hver : env.argv2 ≠ some "--version")
    (hself : resolveNeoai env.resolveEnv none = some s)
    (hmark : env.markerSet = false)
    (hpkg : env.packageVersion ≠ "") :
    (∃ emitted, mainRun env =
      ([Event.printGuidanceNoWorkspace, Event.printNote, Event.warnOutdated emitted true],
        Outcome.exitNoWorkspace)) ∧
    outcomeExitCode Outcome.exitNoWorkspace = some 1 := by
  have hb1 : (env.argv2 == some "new") = false := beq_eq_false_iff_ne.mpr h1
  have hb2 : (env.argv2 == some "_migrate") = false := beq_eq_false_iff_ne.mpr h2
  have hb3 : (env.argv2 == some "init") = false := beq_eq_false_iff_ne.mpr h3
  have hb4 : (env.argv2 == some "graph") = false := beq_eq_false_iff_ne.mpr h4
  have hbver : (env.argv2 == some "--version") = false := beq_eq_false_iff_ne.mpr hver
  have hexempt : isWorkspaceExempt env.argv2 none = false := by
    simp [isWorkspaceExempt, hb1, hb2, hb3, hb4]
  constructor
  · refine ⟨(warnIfUsingOutdatedGlobalInstall ⟨none⟩
        (underlyingLatestLookup env.npmViewResult env.pnpmViewResult) false
        (some env.packageVersion) none).1, ?_⟩
    simp [mainRun, hplat, hws, hexempt, hself, hbver, hmark, hpkg,
      warnIfUsingOutdatedGlobalInstall, checkOutdatedGlobalInstallation,
      getLatestVersionOfNeoai, cacheTruthy, truthyS]
  · rfl

/-- Concrete invocation: `build` on a supported platform with no workspace. -/
def noWorkspaceEnv : MainEnv :=
  ⟨some "build", true, none,
    ⟨fun _ => none, fun r => if r == globalsRoot then some "/g/neoai.js" else none⟩,
    none, "20.0.0", false, none, none⟩

/-- Witness for C10 at the concrete no-workspace `build` invocation. -/
theorem no_workspace_warning_after_guidance_witness :
    (∃ emitted, mainRun noWorkspaceEnv =
      ([Event.printGuidanceNoWorkspace, Event.printNote, Event.warnOutdated emitted true],
        Outcome.exitNoWorkspace)) ∧
    outcomeExitCode Outcome.exitNoWorkspace = some 1 :=
  no_workspace_warning_after_guidance noWorkspaceEnv "/g/neoai.js" rfl rfl
    (by decide) (by decide) (by decide) (by decide) (by decide) (by decide) rfl
    (by decide)

/-! ## Concrete instantiations -/

/-- Witness for C2: the scan state starting at a literal `--`. -/
theorem separator_stops_rewriting_witness :
    rewriteLoop ["--", "-p", "a"] = ["--", "-p", "a"] :=
  separator_stops_rewriting.1 ["-p", "a"]

/-- Witness for C7 at a concrete post-install environment and the
watchdog-first settling order. -/
theorem postinstall_always_exits_zero_witness :
    exitCodesOf (postInstallRun ⟨true, true, true, true, Except.ok ()⟩ PostOutcome.timerFirst)
        = [0] ∧
    (postInstallRun ⟨true, true, true, true, Except.ok ()⟩ PostOutcome.timerFirst).getLast?
        = some (PostEvent.exitProc 0) ∧
    PostEvent.clearWatchdog ∈
      postInstallRun ⟨true, true, true, true, Except.ok ()⟩ PostOutcome.workFirst :=
  postinstall_always_exits_zero ⟨true, true, true, true, Except.ok ()⟩ PostOutcome.timerFirst

/-- Witness for C9 at a concrete `build --help` invocation. -/
theorem initLocal_sets_marker_first_witness :
    (initLocal ⟨["node", "cli", "build", "--help"], "nx", ["build"]⟩
        = InitEvent.setEnvMarker
          :: initLocalDispatch ⟨["node", "cli", "build", "--help"], "nx", ["build"]⟩ ∧
      InitEvent.setEnvMarker
        ∉ initLocalDispatch ⟨["node", "cli", "build", "--help"], "nx", ["build"]⟩) ∧
    (∀ c fn g l, (warnIfUsingOutdatedGlobalInstall c fn true g l).1 = false) :=
  initLocal_sets_marker_first ⟨["node", "cli", "build", "--help"], "nx", ["build"]⟩

end NeoaiCLI
